import Mathlib

/-!
Shallow embedding of `sunpy/coordinates/utilities.py`.

The module under verification is a thin orchestration layer over an external
astronomical library (astropy): ephemeris lookup, frame transforms and vector
algebra.  The external calls are modelled as fields of an abstract `Ephemeris`
record; the module's own logic (longitude arithmetic, wrapping, the signed-angle
vector geometry, the one-time calibration constant) is embedded directly.

Angle arithmetic for L0 is carried out over `ℚ` in degrees (astropy `Longitude`
wraps into [0°, 360°); we model that wrap exactly).  The signed-angle helper
uses `ℝ` because it involves square roots (vector norms) and `atan2`
(modelled via `Complex.arg`, which has range (-π, π]).
-/

/-- A canonical time instant, identified by its Julian date (`Time.jd` in the
source). -/
structure Time where
  jd : ℚ
deriving DecidableEq

/-- An observer location on Earth (`astropy.coordinates.EarthLocation`);
geodetic components. -/
structure Location where
  lat : ℚ
  lon : ℚ
  height : ℚ
deriving DecidableEq

/-- Result of transforming Earth's barycentric ICRS position into the
HeliographicStonyhurst frame: spherical components (degrees, degrees,
distance). -/
structure HGSOut where
  lon : ℚ
  lat : ℚ
  radius : ℚ
deriving DecidableEq

/-- A SkyCoord in the HeliographicStonyhurst frame tagged with its observation
time, as produced by `get_earth`. -/
structure EarthSky where
  lon : ℚ
  lat : ℚ
  radius : ℚ
  obstime : Time
deriving DecidableEq

/-- A point given in the HeliographicStonyhurst frame (longitude and latitude
in degrees, radius in km), as constructed inside `_sun_north_angle_to_z`. -/
structure HGSPoint where
  lon : ℚ
  lat : ℚ
  radiusKm : ℚ
deriving DecidableEq

/-- A 3-component Cartesian vector (`CartesianRepresentation`). -/
structure Vec3 where
  x : ℝ
  y : ℝ
  z : ℝ

namespace Vec3

/-- Dot product of two Cartesian vectors (`.dot()`). -/
def dot (a b : Vec3) : ℝ :=
  a.x * b.x + a.y * b.y + a.z * b.z

/-- Cross product of two Cartesian vectors (`.cross()`). -/
def cross (a b : Vec3) : Vec3 :=
  ⟨a.y * b.z - a.z * b.y, a.z * b.x - a.x * b.z, a.x * b.y - a.y * b.x⟩

/-- Scalar multiple of a vector. -/
def smul (c : ℝ) (v : Vec3) : Vec3 :=
  ⟨c * v.x, c * v.y, c * v.z⟩

/-- Euclidean norm of a vector (`.norm()`). -/
noncomputable def norm (v : Vec3) : ℝ :=
  Real.sqrt (dot v v)

/-- Componentwise division of a vector by its own norm (the in-place
`v /= v.norm()` of the source); there is no guard against `norm v = 0`. -/
noncomputable def normed (v : Vec3) : Vec3 :=
  ⟨v.x / norm v, v.y / norm v, v.z / norm v⟩

end Vec3

/-- The target frames handed to `_sun_north_angle_to_z`:
`PrecessedGeocentric(equinox=obstime, obstime=obstime)` from `get_sun_P`, and
`AltAz(obstime=obstime, location=location)` from `get_sun_orientation`. -/
inductive Frame where
  | precessedGeocentric (equinox : Time) (obstime : Time)
  | altAz (obstime : Time) (location : Location)
deriving DecidableEq

/-- The external astronomical library (astropy) behind the module: the
composite calls the module makes are modelled as abstract functions.
`earthHGS t` is `get_body_barycentric('earth', t)` followed by the ICRS→HGS
transform; `detiltLon c` is `c.hcrs.cartesian.transform(_sun_detilt_matrix)
.represent_as(SphericalRepresentation).lon.to('deg')`; `frameX f p` is
`SkyCoord(p, frame=HGS, obstime=...).transform_to(f).data.to_cartesian()`. -/
structure Ephemeris where
  earthHGS : Time → HGSOut
  detiltLon : EarthSky → ℚ
  frameX : Frame → HGSPoint → Vec3

/-- Wrap an angle in degrees into [0°, 360°): the wrap performed by astropy's
`Longitude` with its default wrap angle. -/
def wrap360 (x : ℚ) : ℚ :=
  x - 360 * ⌊x / 360⌋

/-- `get_earth(time)`: Earth's barycentric position transformed into the
HeliographicStonyhurst frame, with the longitude then explicitly reset to 0. -/
def get_earth (E : Ephemeris) (t : Time) : EarthSky :=
  let earth := E.earthHGS t
  { lon := 0, lat := earth.lat, radius := earth.radius, obstime := t }

/-- `get_sun_B0(time)`: the heliographic latitude of the Sun-disk center seen
from Earth, `Angle(get_earth(time).lat)`. -/
def get_sun_B0 (E : Ephemeris) (t : Time) : ℚ :=
  (get_earth E t).lat

/-- `get_sunearth_distance(time)`: `get_earth(time).radius`. -/
def get_sunearth_distance (E : Ephemeris) (t : Time) : ℚ :=
  (get_earth E t).radius

/-- `_time_first_rotation = Time('1853-11-09 21:36')`: the start of Carrington
rotation 1, Julian date 2398167.4. -/
def _time_first_rotation : Time :=
  ⟨(23981674 : ℚ) / 10⟩

/-- `_lon_first_rotation`: the longitude of Earth at Carrington rotation 1 in
de-tilted HCRS, computed once at module initialization. -/
def _lon_first_rotation (E : Ephemeris) : ℚ :=
  E.detiltLon (get_earth E _time_first_rotation)

/-- The body of `get_sun_L0`, with the module-level calibration constant
`_lon_first_rotation` passed explicitly as `lonFirst`. -/
def get_sun_L0_core (E : Ephemeris) (lonFirst : ℚ) (t : Time) : ℚ :=
  let sidereal_lon := wrap360 ((t.jd - _time_first_rotation.jd) / ((2538 : ℚ) / 100) * 360)
  let lon_obstime := E.detiltLon (get_earth E t)
  wrap360 (lon_obstime - lonFirst - sidereal_lon)

/-- `get_sun_L0(time)`: the Carrington longitude of the Sun-disk center seen
from Earth, reading the module-level constant `_lon_first_rotation`. -/
def get_sun_L0 (E : Ephemeris) (t : Time) : ℚ :=
  get_sun_L0_core E (_lon_first_rotation E) t

/-- The Sun-center reference point built inside `_sun_north_angle_to_z`:
`SkyCoord(0*u.deg, 0*u.deg, 0*u.km, frame=HGS, ...)`. -/
def sunCenterPoint : HGSPoint :=
  ⟨0, 0, 0⟩

/-- The solar-north reference point built inside `_sun_north_angle_to_z`:
`SkyCoord(0*u.deg, 90*u.deg, 690000*u.km, frame=HGS, ...)`. -/
def sunNorthPoint : HGSPoint :=
  ⟨0, 90, 690000⟩

/-- `np.arctan2(y, x)` converted to degrees, modelled through `Complex.arg`
(which returns the signed angle of the point `(x, y)` in (-π, π]). -/
noncomputable def degAtan2 (y x : ℝ) : ℝ :=
  Complex.arg ⟨x, y⟩ * (180 / Real.pi)

/-- `_sun_north_angle_to_z(frame)`: the signed angle between solar north and
the Z axis of the given frame, computed by sky-projecting both directions via
cross products with the Sun-center (line-of-sight) vector, normalizing, and
taking `atan2` of the signed sine and cosine. -/
noncomputable def _sun_north_angle_to_z (E : Ephemeris) (frame : Frame) : ℝ :=
  let sky_normal := E.frameX frame sunCenterPoint
  let sun_north := E.frameX frame sunNorthPoint
  let sun_north_in_sky := Vec3.cross sun_north sky_normal
  let z_in_sky := Vec3.cross ⟨0, 0, 1⟩ sky_normal
  let sky_normal_n := sky_normal.normed
  let sun_north_in_sky_n := sun_north_in_sky.normed
  let z_in_sky_n := z_in_sky.normed
  let cos_theta := Vec3.dot sun_north_in_sky_n z_in_sky_n
  let sin_theta := Vec3.dot (Vec3.cross sun_north_in_sky_n z_in_sky_n) sky_normal_n
  degAtan2 sin_theta cos_theta

/-- `get_sun_P(time)`: the position angle of solar north measured from
geocentric north, via the signed-angle helper on a `PrecessedGeocentric`
frame with `equinox=obstime`. -/
noncomputable def get_sun_P (E : Ephemeris) (t : Time) : ℝ :=
  _sun_north_angle_to_z E (Frame.precessedGeocentric t t)

/-- `get_sun_orientation(location, time)`: the angle between local zenith and
solar north, via the signed-angle helper on an `AltAz` frame. -/
noncomputable def get_sun_orientation (E : Ephemeris) (location : Location) (t : Time) : ℝ :=
  _sun_north_angle_to_z E (Frame.altAz t location)

/-- A time argument as accepted by the public functions: either an already
canonical `astropy.time.Time` instance, or any other input (a string, a
datetime, the `'now'` sentinel, ...) that must go through `parse_time`. -/
inductive TimeInput where
  | time (t : Time)
  | other (s : String)
deriving DecidableEq

/-- `_astropy_time(time)`: return the input unchanged when it already is a
`Time` instance, otherwise run it through the external parser
(`Time(parse_time(time))`, modelled as `parse`, which can fail). -/
def _astropy_time (parse : String → Option Time) : TimeInput → Option Time
  | TimeInput.time t => some t
  | TimeInput.other s => parse s

/-- One invocation of a public function of the module, with its explicit
arguments. -/
inductive Call where
  | earth (t : Time)
  | b0 (t : Time)
  | l0 (t : Time)
  | pAngle (t : Time)
  | dist (t : Time)
  | orient (location : Location) (t : Time)

/-- The value returned by one public-function invocation. -/
inductive Output where
  | sky (c : EarthSky)
  | angQ (a : ℚ)
  | angR (a : ℝ)
  | distQ (d : ℚ)

/-- The module-level mutable surface is exactly one value: the calibration
constant `_lon_first_rotation`, computed at import time. -/
def initState (E : Ephemeris) : ℚ :=
  _lon_first_rotation E

/-- Execute one public-function call against the module state `s` (the stored
calibration constant): returns the state after the call together with the
call's output.  `get_sun_L0` is the only function reading the state; no
function writes it. -/
noncomputable def runCall (E : Ephemeris) (s : ℚ) : Call → ℚ × Output
  | Call.earth t => (s, Output.sky (get_earth E t))
  | Call.b0 t => (s, Output.angQ (get_sun_B0 E t))
  | Call.l0 t => (s, Output.angQ (get_sun_L0_core E s t))
  | Call.pAngle t => (s, Output.angR (get_sun_P E t))
  | Call.dist t => (s, Output.distQ (get_sunearth_distance E t))
  | Call.orient location t => (s, Output.angR (get_sun_orientation E location t))

lemma wrap360_eq_fract (x : ℚ) : wrap360 x = 360 * Int.fract (x / 360) := by
  unfold wrap360 Int.fract
  ring

lemma wrap360_nonneg (x : ℚ) : 0 ≤ wrap360 x := by
  rw [wrap360_eq_fract]
  have h := Int.fract_nonneg (x / 360)
  positivity

lemma wrap360_lt (x : ℚ) : wrap360 x < 360 := by
  rw [wrap360_eq_fract]
  have h := Int.fract_lt_one (x / 360)
  linarith

lemma wrap360_zero : wrap360 0 = 0 := by
  unfold wrap360
  norm_num

/-- C3: `get_earth(t)` has heliographic-Stonyhurst longitude exactly 0°, while
its latitude and radius equal those of the heliographic transform of Earth's
barycentric ephemeris position at `t`, and it is tagged with `t`. -/
theorem get_earth_lon_zero (E : Ephemeris) (t : Time) :
    (get_earth E t).lon = 0 ∧ (get_earth E t).lat = (E.earthHGS t).lat ∧
      (get_earth E t).radius = (E.earthHGS t).radius ∧ (get_earth E t).obstime = t :=
  ⟨rfl, rfl, rfl, rfl⟩

/-- C6: `get_sun_B0(t)` is exactly the latitude component of `get_earth(t)`,
with no additional geometry applied. -/
theorem get_sun_B0_is_earth_lat (E : Ephemeris) (t : Time) :
    get_sun_B0 E t = (get_earth E t).lat :=
  rfl

/-- C7: `get_sunearth_distance(t)` is exactly the radial component of
`get_earth(t)`. -/
theorem get_sunearth_distance_is_earth_radius (E : Ephemeris) (t : Time) :
    get_sunearth_distance E t = (get_earth E t).radius :=
  rfl

/-- C1: `get_sun_L0(t)` equals `wrap360(geometric - sidereal)`, where the
sidereal component is (days since the 1853-11-09 21:36 epoch) / 25.38 × 360°
wrapped to [0°, 360°) (the wrap bounds are part of the statement), and the
geometric component is the de-tilted HCRS longitude of `get_earth(t)` minus
the precomputed reference longitude at the epoch; the subtraction order is
(geometric − sidereal) before the final wrap. -/
theorem get_sun_L0_spec (E : Ephemeris) (t : Time) :
    get_sun_L0 E t =
      wrap360 ((E.detiltLon (get_earth E t) - _lon_first_rotation E) -
        wrap360 ((t.jd - _time_first_rotation.jd) / ((2538 : ℚ) / 100) * 360)) ∧
    0 ≤ wrap360 ((t.jd - _time_first_rotation.jd) / ((2538 : ℚ) / 100) * 360) ∧
    wrap360 ((t.jd - _time_first_rotation.jd) / ((2538 : ℚ) / 100) * 360) < 360 ∧
    _lon_first_rotation E = E.detiltLon (get_earth E _time_first_rotation) := by
  refine ⟨?_, wrap360_nonneg _, wrap360_lt _, rfl⟩
  unfold get_sun_L0 get_sun_L0_core
  ring_nf

/-- C5: `get_sun_L0(t)` always lies in the half-open interval [0°, 360°). -/
theorem get_sun_L0_range (E : Ephemeris) (t : Time) :
    0 ≤ get_sun_L0 E t ∧ get_sun_L0 E t < 360 :=
  ⟨wrap360_nonneg _, wrap360_lt _⟩

/-- C4: evaluated at the calibration epoch itself, `get_sun_L0` is exactly 0°
in the model: the sidereal component vanishes, the de-tilted HCRS longitude
equals the precomputed reference longitude, and their difference wraps to
zero (the start of Carrington rotation 1, by construction of the constant). -/
theorem get_sun_L0_at_first_rotation (E : Ephemeris) :
    get_sun_L0 E _time_first_rotation = 0 := by
  unfold get_sun_L0 get_sun_L0_core _lon_first_rotation
  simp [wrap360_zero]

lemma degAtan2_mem (y x : ℝ) : -180 < degAtan2 y x ∧ degAtan2 y x ≤ 180 := by
  unfold degAtan2
  have hk : (0 : ℝ) < 180 / Real.pi := by positivity
  have h1 : Complex.arg ⟨x, y⟩ ≤ Real.pi := Complex.arg_le_pi _
  have h2 : -Real.pi < Complex.arg ⟨x, y⟩ := Complex.neg_pi_lt_arg _
  have he2 : Real.pi * (180 / Real.pi) = 180 := by
    field_simp
  have he1 : -Real.pi * (180 / Real.pi) = -180 := by
    rw [neg_mul, he2]
  constructor
  · have h := mul_lt_mul_of_pos_right h2 hk
    linarith
  · have h := mul_le_mul_of_nonneg_right h1 hk.le
    linarith

/-- C2: for every frame (with its observation time), the signed-angle helper
returns `atan2(sin_theta, cos_theta)` where, writing `sky_normal` for the
Sun-center vector in the target frame, the solar-north vector (taken at
690,000 km on the solar north axis) and the frame's Z axis are projected via
cross product with `sky_normal`, all three vectors are normalized, and
`cos_theta = dot(projected_north, projected_Z)`,
`sin_theta = dot(cross(projected_north, projected_Z), sky_normal)`; the
result is a signed angle in (-180°, 180°]. -/
theorem sun_north_angle_to_z_spec (E : Ephemeris) (f : Frame) :
    _sun_north_angle_to_z E f =
      degAtan2
        (Vec3.dot
          (Vec3.cross
            (Vec3.normed (Vec3.cross (E.frameX f sunNorthPoint) (E.frameX f sunCenterPoint)))
            (Vec3.normed (Vec3.cross ⟨0, 0, 1⟩ (E.frameX f sunCenterPoint))))
          (Vec3.normed (E.frameX f sunCenterPoint)))
        (Vec3.dot
          (Vec3.normed (Vec3.cross (E.frameX f sunNorthPoint) (E.frameX f sunCenterPoint)))
          (Vec3.normed (Vec3.cross ⟨0, 0, 1⟩ (E.frameX f sunCenterPoint)))) ∧
    -180 < _sun_north_angle_to_z E f ∧ _sun_north_angle_to_z E f ≤ 180 :=
  ⟨rfl, (degAtan2_mem _ _).1, (degAtan2_mem _ _).2⟩

/-- C8: the normalization divisions in the signed-angle helper are unguarded:
under the precondition that a vector is nonzero its normalization is
well-defined (the result has unit norm), while in the degenerate case where
the solar-north vector in the target frame is a scalar multiple of the
line-of-sight vector, the projected-north vector `sun_north.cross(sky_normal)`
has norm exactly 0, so its normalization divides by zero (the embedding's
total division stands in for the numerical error the source propagates). -/
theorem sun_north_angle_divisions (v : Vec3) (X : HGSPoint → Vec3) (c : ℝ)
    (hv : v.norm ≠ 0) (hdeg : X sunNorthPoint = Vec3.smul c (X sunCenterPoint)) :
    (Vec3.normed v).norm = 1 ∧
      (Vec3.cross (X sunNorthPoint) (X sunCenterPoint)).norm = 0 := by
  constructor
  · have hd : 0 ≤ Vec3.dot v v := by
      unfold Vec3.dot
      nlinarith [mul_self_nonneg v.x, mul_self_nonneg v.y, mul_self_nonneg v.z]
    have hn0 : 0 ≤ v.norm := Real.sqrt_nonneg _
    have key : Vec3.dot (Vec3.normed v) (Vec3.normed v) = Vec3.dot v v / v.norm ^ 2 := by
      unfold Vec3.normed Vec3.dot
      rw [pow_two, div_mul_div_comm, div_mul_div_comm, div_mul_div_comm,
        div_add_div_same, div_add_div_same]
    show Real.sqrt (Vec3.dot (Vec3.normed v) (Vec3.normed v)) = 1
    rw [key, Real.sqrt_div hd, Real.sqrt_sq hn0]
    exact div_self hv
  · rw [hdeg]
    have hz : Vec3.cross (Vec3.smul c (X sunCenterPoint)) (X sunCenterPoint) = ⟨0, 0, 0⟩ := by
      unfold Vec3.cross Vec3.smul
      congr 1 <;> ring
    rw [hz]
    simp [Vec3.norm, Vec3.dot]

/-- Witness for C8 at concrete inputs: the unit vector (1,0,0) normalizes to
unit norm, and with every HGS point sent to (0,0,1) the solar-north vector is
1 times the line-of-sight vector, so the projected vector has norm 0. -/
theorem sun_north_angle_divisions_witness :
    (Vec3.normed ⟨1, 0, 0⟩).norm = 1 ∧
      (Vec3.cross ((fun _ => Vec3.mk 0 0 1) sunNorthPoint)
        ((fun _ => Vec3.mk 0 0 1) sunCenterPoint)).norm = 0 :=
  sun_north_angle_divisions ⟨1, 0, 0⟩ (fun _ => ⟨0, 0, 1⟩) 1
    (by norm_num [Vec3.norm, Vec3.dot])
    (by norm_num [Vec3.smul])

/-- C9: every public function is deterministic in its explicit arguments: a
call never mutates the module state (the calibration constant computed at
initialization), and repeating the same call from the resulting state yields
the identical output; moreover running `l0` against the initial state is
exactly `get_sun_L0`. -/
theorem public_calls_deterministic (E : Ephemeris) (s : ℚ) (c : Call) :
    (runCall E s c).1 = s ∧
      (runCall E ((runCall E s c).1) c).2 = (runCall E s c).2 ∧
      ∀ t : Time, (runCall E (initState E) (Call.l0 t)).2 = Output.angQ (get_sun_L0 E t) := by
  cases c <;> exact ⟨rfl, rfl, fun _ => rfl⟩

/-- C10: the internal time normalizer passes an already-canonical `Time`
instance through unchanged, independently of the parser (so such inputs are
never re-parsed or re-validated), while every non-`Time` input goes through
the parser, whose error paths propagate. -/
theorem astropy_time_passthrough (parse₁ parse₂ : String → Option Time) (t : Time)
    (s : String) :
    _astropy_time parse₁ (TimeInput.time t) = some t ∧
      _astropy_time parse₁ (TimeInput.time t) = _astropy_time parse₂ (TimeInput.time t) ∧
      _astropy_time parse₁ (TimeInput.other s) = parse₁ s :=
  ⟨rfl, rfl, rfl⟩
